import Mathlib

/-!
Verification of `src/reappointment_kate.py` (TibaSasa healthcare demo app).

Modelling conventions for the shallow embedding:
- Python dicts (`st.session_state.patients_db`, `doctors_db`, `appointments_db`)
  become association lists `List (String × _)` with first-match lookup; dict
  assignment replaces the binding in place when the key is present and appends
  otherwise, matching insertion-ordered Python dict semantics.
- Python object identity for `Appointment` objects matters (a registry
  collision makes two distinct objects share an id), so appointment objects
  live in an allocation-ordered list `objects : List Appointment`; an object
  reference is its index.  Patient/doctor appointment lists and the registry
  hold such references, exactly as the Python lists hold object references.
- The `patient` / `doctor` fields of an `Appointment` are references to the
  store objects; a patient/doctor object is only ever bound under its one key
  in its db and the binding is never replaced, so the db key models the
  reference faithfully.
- `random.randint(1000, 9999)` is an oracle: `schedule_appointment` takes the
  drawn number as an explicit argument `rand`.
- Timestamps (`datetime`) are opaque and only constructed and compared, so
  they are modelled as `Int`.
- Floats in the risk path are modelled as `ℚ`; the only float operation the
  code performs is comparison with the literal `0.5`, which is exact.
-/

namespace Reappointment

/-- Vitals log entry (`class VitalsLog`); `data` is a dict of strings.
Unused by any operation, but part of the `Patient` shape. -/
structure VitalsLog where
  patient : String
  log_time : Int
  data : List (String × String)
deriving DecidableEq

/-- `class Patient`.  `appointments` holds references (indices into the
appointment object list); `vitals` starts empty and is never written. -/
structure Patient where
  patient_id : String
  name : String
  phone_number : String
  medical_history : String
  vitals : List VitalsLog
  appointments : List Nat
deriving DecidableEq

/-- `Patient.__init__`: vitals and appointments start as empty lists. -/
def Patient.init (patient_id name phone_number medical_history : String) : Patient :=
  { patient_id := patient_id, name := name, phone_number := phone_number,
    medical_history := medical_history, vitals := [], appointments := [] }

/-- `class Doctor`. -/
structure Doctor where
  doctor_id : String
  name : String
  specialization : String
  appointments : List Nat
deriving DecidableEq

/-- `Doctor.__init__`. -/
def Doctor.init (doctor_id name specialization : String) : Doctor :=
  { doctor_id := doctor_id, name := name, specialization := specialization,
    appointments := [] }

/-- `class Appointment`.  `patient` and `doctor` are the store keys of the
referenced objects (see module conventions). -/
structure Appointment where
  appointment_id : String
  patient : String
  doctor : String
  appointment_time : Int
  status : String
  video_call_link : Option String
deriving DecidableEq

/-- `Appointment.__init__`: status starts as "Scheduled", the video call link
as `None`. -/
def Appointment.init (appointment_id patient doctor : String)
    (appointment_time : Int) : Appointment :=
  { appointment_id := appointment_id, patient := patient, doctor := doctor,
    appointment_time := appointment_time, status := "Scheduled",
    video_call_link := none }

/-- First-match lookup in an association list (`d[k]` / `k in d`). -/
def dictLookup {α : Type} : List (String × α) → String → Option α
  | [], _ => none
  | (k, v) :: rest, key => if k = key then some v else dictLookup rest key

/-- Python dict assignment `d[k] = v`: replace the binding in place if the key
is present, otherwise append a new binding (insertion order preserved). -/
def dictInsert {α : Type} : List (String × α) → String → α → List (String × α)
  | [], key, v => [(key, v)]
  | (k, w) :: rest, key, v =>
    if k = key then (k, v) :: rest else (k, w) :: dictInsert rest key v

/-- In-place mutation of the object bound to a key (`d[k].field = ...`):
apply `f` to the value at the key, leave everything else untouched. -/
def dictModify {α : Type} : List (String × α) → String → (α → α) → List (String × α)
  | [], _, _ => []
  | (k, w) :: rest, key, f =>
    if k = key then (k, f w) :: rest else (k, w) :: dictModify rest key f

/-- The session state: the three dicts plus the allocation-ordered list of all
`Appointment` objects ever constructed (`objects`), which models the Python
heap so that object references are indices. -/
structure AppState where
  patients_db : List (String × Patient)
  doctors_db : List (String × Doctor)
  appointments_db : List (String × Nat)
  objects : List Appointment
deriving DecidableEq

/-- The sample data installed at startup: patient "PAT001" (Asha Wanjiru) and
doctor "DOC501" (John Omondi), with empty registries. -/
def initState : AppState :=
  { patients_db :=
      [("PAT001", Patient.init "PAT001" "Asha Wanjiru" "+254712345678" "Type 2 Diabetes")],
    doctors_db := [("DOC501", Doctor.init "DOC501" "John Omondi" "Endocrinology")],
    appointments_db := [],
    objects := [] }

/-- `schedule_appointment(patient_id, doctor_id, appointment_time)`.
Returns the error string when either id is absent, otherwise constructs the
new `Appointment` (a fresh object reference), binds `appointments_db[appointment_id]`
to it, and appends the reference to both the patient's and the doctor's
`appointments` lists.  `rand` is the value drawn by `random.randint(1000, 9999)`. -/
def schedule_appointment (s : AppState) (patient_id doctor_id : String)
    (appointment_time : Int) (rand : Nat) : Except String Nat × AppState :=
  if (dictLookup s.patients_db patient_id).isNone ||
      (dictLookup s.doctors_db doctor_id).isNone then
    (Except.error "Error: Patient or Doctor not found.", s)
  else
    let appointment_id := "APP" ++ toString rand
    let new_appointment :=
      Appointment.init appointment_id patient_id doctor_id appointment_time
    let ref := s.objects.length
    (Except.ok ref,
      { patients_db :=
          dictModify s.patients_db patient_id
            (fun p => { p with appointments := p.appointments ++ [ref] }),
        doctors_db :=
          dictModify s.doctors_db doctor_id
            (fun d => { d with appointments := d.appointments ++ [ref] }),
        appointments_db := dictInsert s.appointments_db appointment_id ref,
        objects := s.objects ++ [new_appointment] })

/-- One row of the "View Appointments" table: appointment id, patient name,
doctor name, time, status.  The Python loop dereferences `app.patient` /
`app.doctor` directly; here the references are resolved through the object
list and the stores (they always resolve in reachable states). -/
def view_appointments (s : AppState) : List (String × String × String × Int × String) :=
  s.appointments_db.filterMap (fun kv =>
    match s.objects.get? kv.2 with
    | some a =>
      match dictLookup s.patients_db a.patient, dictLookup s.doctors_db a.doctor with
      | some p, some d =>
        some (a.appointment_id, p.name, d.name, a.appointment_time, a.status)
      | _, _ => none
    | none => none)

/-! ### Risk scoring -/

/-- The opaque external classifier: `predict_proba` on a single row yields
`[P(class0), P(class1)]`, modelled as a pair. -/
abbrev Model := List ℚ → ℚ × ℚ

/-- The form inputs of the "Readmission Risk Prediction" page. -/
structure FeatureInput where
  age : ℚ
  has_diabetes : Bool
  has_hypertension : Bool
  previous_admissions : ℚ
  avg_blood_sugar_last_7_days : ℚ

/-- The `patient_data` dict, built in source order with the checkbox booleans
converted to 0/1 (`has_diabetes_int`, `has_hypertension_int`). -/
def patient_data (f : FeatureInput) : List (String × ℚ) :=
  [("age", f.age),
   ("has_diabetes", if f.has_diabetes then 1 else 0),
   ("has_hypertension", if f.has_hypertension then 1 else 0),
   ("previous_admissions", f.previous_admissions),
   ("avg_blood_sugar_last_7_days", f.avg_blood_sugar_last_7_days)]

/-- The `features` column list used to fix the column order. -/
def features : List String :=
  ["age", "has_diabetes", "has_hypertension", "previous_admissions",
   "avg_blood_sugar_last_7_days"]

/-- `input_df = input_df[features]`: the single row reordered to the `features`
columns (every feature name is present in the dict, so nothing is dropped). -/
def input_df (f : FeatureInput) : List ℚ :=
  features.filterMap (fun c => dictLookup (patient_data f) c)

/-- `risk_score = model.predict_proba(input_df)[:, 1][0]`: the positive-class
probability of the single row. -/
def predict_risk (model : Model) (f : FeatureInput) : ℚ :=
  (model (input_df f)).2

/-- The "Predict Risk" button handler as a state transformer: it computes the
score and only displays it — no session-state field is read or written, so the
state passes through unchanged. -/
def predict_risk_handler (model : Model) (f : FeatureInput) (s : AppState) :
    ℚ × AppState :=
  (predict_risk model f, s)

/-- The interpretation branch: `if risk_score > 0.5` show the higher-risk
message, else the lower-risk message. -/
def risk_interpretation (risk_score : ℚ) : String :=
  if risk_score > 1/2 then
    "This patient has a higher predicted risk of readmission."
  else
    "This patient has a lower predicted risk of readmission."

/-- The risk-prediction page: if the model loaded (the `try`/`except` around
`joblib.load` plus the `if 'model' in locals() and model` guard, modelled as
`Option Model`), score and interpret; otherwise show the unavailable warning. -/
def risk_page (model : Option Model) (f : FeatureInput) : String :=
  match model with
  | some m => risk_interpretation (predict_risk m f)
  | none =>
    "Readmission risk prediction is unavailable because the model could not be loaded."

/-! ### Dictionary lemmas -/

theorem dictLookup_dictModify_self {α : Type} (d : List (String × α)) (k : String)
    (f : α → α) : dictLookup (dictModify d k f) k = (dictLookup d k).map f := by
  induction d with
  | nil => rfl
  | cons hd tl ih =>
    obtain ⟨k', v⟩ := hd
    by_cases h : k' = k <;> simp [dictModify, dictLookup, h, ih]

theorem dictLookup_dictModify_ne {α : Type} (d : List (String × α)) (k k' : String)
    (f : α → α) (h : k' ≠ k) :
    dictLookup (dictModify d k f) k' = dictLookup d k' := by
  induction d with
  | nil => rfl
  | cons hd tl ih =>
    obtain ⟨k₀, v⟩ := hd
    by_cases h₀ : k₀ = k
    · subst h₀
      simp [dictModify, dictLookup, Ne.symm h]
    · by_cases h₁ : k₀ = k' <;> simp [dictModify, dictLookup, h, h₀, h₁, ih]

theorem dictLookup_dictInsert_self {α : Type} (d : List (String × α)) (k : String)
    (v : α) : dictLookup (dictInsert d k v) k = some v := by
  induction d with
  | nil => simp [dictInsert, dictLookup]
  | cons hd tl ih =>
    obtain ⟨k₀, w⟩ := hd
    by_cases h : k₀ = k <;> simp [dictInsert, dictLookup, h, ih]

theorem dictLookup_dictInsert_ne {α : Type} (d : List (String × α)) (k k' : String)
    (v : α) (h : k' ≠ k) :
    dictLookup (dictInsert d k v) k' = dictLookup d k' := by
  induction d with
  | nil => simp [dictInsert, dictLookup, Ne.symm h]
  | cons hd tl ih =>
    obtain ⟨k₀, w⟩ := hd
    by_cases h₀ : k₀ = k
    · subst h₀
      simp [dictInsert, dictLookup, Ne.symm h]
    · by_cases h₁ : k₀ = k' <;> simp [dictInsert, dictLookup, h, h₀, h₁, ih]

/-! ### Claims -/

/-- C4: the interpretation label is the higher-risk message exactly when the
probability is strictly greater than 0.5, and the lower-risk message for 0.5
and below; the threshold is the fixed literal 1/2. -/
theorem C4_risk_threshold (p : ℚ) :
    (risk_interpretation p =
        "This patient has a higher predicted risk of readmission." ↔ 1/2 < p)
  ∧ (p ≤ 1/2 →
      risk_interpretation p =
        "This patient has a lower predicted risk of readmission.") := by
  unfold risk_interpretation
  constructor
  · by_cases h : 1/2 < p <;> simp [h]
  · intro hp
    rw [if_neg (not_lt.mpr hp)]

/-- C4 witness: probability 3/4 is labelled higher risk, probability 1/2 is
labelled lower risk. -/
theorem C4_risk_threshold_witness :
    risk_interpretation (3/4) =
      "This patient has a higher predicted risk of readmission."
  ∧ risk_interpretation (1/2) =
      "This patient has a lower predicted risk of readmission." :=
  ⟨(C4_risk_threshold (3/4)).1.mpr (by norm_num),
   (C4_risk_threshold (1/2)).2 le_rfl⟩

/-- C6: the row fed to `predict_proba` lists the feature values in exactly the
order age, has_diabetes, has_hypertension, previous_admissions,
avg_blood_sugar_last_7_days, with the booleans encoded as 0/1, and the
reported probability is the positive-class (second) entry of the model
output; no other transformation is applied. -/
theorem C6_feature_order (m : Model) (f : FeatureInput) :
    input_df f =
      [f.age, if f.has_diabetes then 1 else 0, if f.has_hypertension then 1 else 0,
       f.previous_admissions, f.avg_blood_sugar_last_7_days]
  ∧ predict_risk m f = (m (input_df f)).2 :=
  ⟨rfl, rfl⟩

/-- C8: scoring is deterministic (the same model and feature record give the
same probability regardless of the surrounding session state) and leaves the
session state untouched. -/
theorem C8_score_deterministic_pure (m : Model) (f : FeatureInput)
    (s t : AppState) :
    (predict_risk_handler m f s).1 = (predict_risk_handler m f t).1
  ∧ (predict_risk_handler m f s).2 = s :=
  ⟨rfl, rfl⟩

/-- C7: with no loaded model the risk page shows the distinct unavailable
message (never a risk label, never an exception), while scheduling and the
appointment listing — which take no model input — keep working. -/
theorem C7_model_unavailable :
    (∀ f, risk_page none f =
      "Readmission risk prediction is unavailable because the model could not be loaded.")
  ∧ (∀ f p, risk_page none f ≠ risk_interpretation p)
  ∧ (∀ s pid did t r,
      (dictLookup s.patients_db pid).isSome = true →
      (dictLookup s.doctors_db did).isSome = true →
      (schedule_appointment s pid did t r).1 = Except.ok s.objects.length)
  ∧ view_appointments (schedule_appointment initState "PAT001" "DOC501" 0 1234).2 =
      [("APP1234", "Asha Wanjiru", "John Omondi", 0, "Scheduled")] := by
  refine ⟨fun f => rfl, ?_, ?_, ?_⟩
  · intro f p
    unfold risk_page risk_interpretation
    by_cases h : 1/2 < p
    · rw [if_pos h]; simp
    · rw [if_neg h]; simp
  · intro s pid did t r h1 h2
    rcases hp : dictLookup s.patients_db pid with _ | p
    · rw [hp] at h1; cases h1
    rcases hd : dictLookup s.doctors_db did with _ | d
    · rw [hd] at h2; cases h2
    simp [schedule_appointment, hp, hd]
  · decide

/-- C7 witness: the unavailable message on a concrete record, and a concrete
successful scheduling call. -/
theorem C7_model_unavailable_witness :
    risk_page none ⟨50, false, false, 0, 5⟩ =
      "Readmission risk prediction is unavailable because the model could not be loaded."
  ∧ (schedule_appointment initState "PAT001" "DOC501" 0 1234).1 = Except.ok 0 :=
  ⟨C7_model_unavailable.1 ⟨50, false, false, 0, 5⟩,
   C7_model_unavailable.2.2.1 initState "PAT001" "DOC501" 0 1234 (by decide) (by decide)⟩

/-- C2: when the patient id or the doctor id is absent from its store,
`schedule_appointment` returns exactly the NotFound message (a string, not an
exception) and the state is exactly as before; and this is the only failure
mode — when both ids are present the call returns an appointment. -/
theorem C2_notfound_no_mutation (s : AppState) (pid did : String) (t : Int)
    (r : Nat) :
    (((dictLookup s.patients_db pid).isNone ||
        (dictLookup s.doctors_db did).isNone) = true →
      schedule_appointment s pid did t r =
        (Except.error "Error: Patient or Doctor not found.", s))
  ∧ (((dictLookup s.patients_db pid).isNone ||
        (dictLookup s.doctors_db did).isNone) = false →
      (schedule_appointment s pid did t r).1 = Except.ok s.objects.length) := by
  constructor
  · intro h
    simp [schedule_appointment, h]
  · intro h
    simp [schedule_appointment, h]

/-- C2 witness: scheduling with unknown patient "PATXXX" on the startup state
fails with the NotFound message and leaves the state (empty registry)
untouched. -/
theorem C2_notfound_no_mutation_witness :
    ((dictLookup initState.patients_db "PATXXX").isNone ||
      (dictLookup initState.doctors_db "DOC501").isNone) = true
  ∧ schedule_appointment initState "PATXXX" "DOC501" 0 1234 =
      (Except.error "Error: Patient or Doctor not found.", initState) :=
  ⟨by decide,
   (C2_notfound_no_mutation initState "PATXXX" "DOC501" 0 1234).1 (by decide)⟩

/-- C3: on the startup store (patient "PAT001" Asha Wanjiru, doctor "DOC501"
John Omondi), scheduling returns, for every timestamp T and every drawn
identifier, an appointment whose status is "Scheduled", whose video call link
is absent, whose time is T, and whose patient/doctor references resolve to
Asha Wanjiru and John Omondi. -/
theorem C3_scenario (T : Int) (r : Nat) :
    ∃ a : Appointment,
      (schedule_appointment initState "PAT001" "DOC501" T r).1 = Except.ok 0
    ∧ (schedule_appointment initState "PAT001" "DOC501" T r).2.objects.get? 0 =
        some a
    ∧ a.status = "Scheduled"
    ∧ a.video_call_link = none
    ∧ a.appointment_time = T
    ∧ (dictLookup (schedule_appointment initState "PAT001" "DOC501" T r).2.patients_db
        a.patient).map Patient.name = some "Asha Wanjiru"
    ∧ (dictLookup (schedule_appointment initState "PAT001" "DOC501" T r).2.doctors_db
        a.doctor).map Doctor.name = some "John Omondi" := by
  refine ⟨Appointment.init ("APP" ++ toString r) "PAT001" "DOC501" T,
    ?_, ?_, rfl, rfl, rfl, ?_, ?_⟩ <;>
    simp [schedule_appointment, initState, dictLookup, dictModify,
      Appointment.init, Patient.init, Doctor.init]

/-- C5: every allocated appointment identifier is "APP" followed by the drawn
number, which lies in the 4-digit space 1000–9999; the registry binding is
written unconditionally — the statement holds for every prior state, in
particular states whose registry already binds that identifier, so no
collision check is performed. -/
theorem C5_id_allocation (s : AppState) (pid did : String) (t : Int) (r : Nat)
    (h1 : 1000 ≤ r) (h2 : r ≤ 9999)
    (hp : (dictLookup s.patients_db pid).isSome = true)
    (hd : (dictLookup s.doctors_db did).isSome = true) :
    ∃ a : Appointment,
      (schedule_appointment s pid did t r).1 = Except.ok s.objects.length
    ∧ (schedule_appointment s pid did t r).2.objects.get? s.objects.length =
        some a
    ∧ a.appointment_id = "APP" ++ toString r
    ∧ (∃ n : Nat, 1000 ≤ n ∧ n ≤ 9999 ∧ a.appointment_id = "APP" ++ toString n)
    ∧ dictLookup (schedule_appointment s pid did t r).2.appointments_db
        ("APP" ++ toString r) = some s.objects.length := by
  rcases hp' : dictLookup s.patients_db pid with _ | p
  · rw [hp'] at hp; cases hp
  rcases hd' : dictLookup s.doctors_db did with _ | d
  · rw [hd'] at hd; cases hd
  refine ⟨Appointment.init ("APP" ++ toString r) pid did t,
    ?_, ?_, rfl, ⟨r, h1, h2, rfl⟩, ?_⟩
  · simp [schedule_appointment, hp', hd']
  · simp [schedule_appointment, hp', hd', List.getElem?_concat_length]
  · simp [schedule_appointment, hp', hd', dictLookup_dictInsert_self]

/-- C5 witness: a concrete draw (1234) on the startup state. -/
theorem C5_id_allocation_witness :
    (1000 ≤ 1234 ∧ 1234 ≤ 9999
      ∧ (dictLookup initState.patients_db "PAT001").isSome = true
      ∧ (dictLookup initState.doctors_db "DOC501").isSome = true)
  ∧ ∃ a : Appointment,
      (schedule_appointment initState "PAT001" "DOC501" 0 1234).1 =
        Except.ok initState.objects.length
    ∧ (schedule_appointment initState "PAT001" "DOC501" 0 1234).2.objects.get?
        initState.objects.length = some a
    ∧ a.appointment_id = "APP" ++ toString 1234
    ∧ (∃ n : Nat, 1000 ≤ n ∧ n ≤ 9999 ∧ a.appointment_id = "APP" ++ toString n)
    ∧ dictLookup (schedule_appointment initState "PAT001" "DOC501" 0 1234).2.appointments_db
        ("APP" ++ toString 1234) = some initState.objects.length :=
  ⟨⟨by decide, by decide, by decide, by decide⟩,
   C5_id_allocation initState "PAT001" "DOC501" 0 1234
     (by decide) (by decide) (by decide) (by decide)⟩

/-- C1: for every state in which both ids resolve (and whose appointment
references are valid, as Python references always are), `schedule_appointment`
returns an appointment reference that the registry binds under the new
appointment's identifier and that occurs exactly once in the patient's and
exactly once in the doctor's appointment lists — all in the single returned
state, so the three insertions apply together. -/
theorem C1_three_way_consistency (s : AppState) (pid did : String) (t : Int)
    (r : Nat)
    (hp : (dictLookup s.patients_db pid).isSome = true)
    (hd : (dictLookup s.doctors_db did).isSome = true)
    (hwp : ∀ p, dictLookup s.patients_db pid = some p →
      ∀ i ∈ p.appointments, i < s.objects.length)
    (hwd : ∀ d, dictLookup s.doctors_db did = some d →
      ∀ i ∈ d.appointments, i < s.objects.length) :
    ∃ ref a,
      (schedule_appointment s pid did t r).1 = Except.ok ref
    ∧ (schedule_appointment s pid did t r).2.objects.get? ref = some a
    ∧ dictLookup (schedule_appointment s pid did t r).2.appointments_db
        a.appointment_id = some ref
    ∧ (∃ p', dictLookup (schedule_appointment s pid did t r).2.patients_db pid =
        some p' ∧ p'.appointments.count ref = 1)
    ∧ (∃ d', dictLookup (schedule_appointment s pid did t r).2.doctors_db did =
        some d' ∧ d'.appointments.count ref = 1) := by
  rcases hp' : dictLookup s.patients_db pid with _ | p
  · rw [hp'] at hp; cases hp
  rcases hd' : dictLookup s.doctors_db did with _ | d
  · rw [hd'] at hd; cases hd
  have hcp : p.appointments.count s.objects.length = 0 :=
    List.count_eq_zero.mpr (fun hmem =>
      absurd (hwp p hp' _ hmem) (lt_irrefl _))
  have hcd : d.appointments.count s.objects.length = 0 :=
    List.count_eq_zero.mpr (fun hmem =>
      absurd (hwd d hd' _ hmem) (lt_irrefl _))
  refine ⟨s.objects.length, Appointment.init ("APP" ++ toString r) pid did t,
    ?_, ?_, ?_, ?_, ?_⟩
  · simp [schedule_appointment, hp', hd']
  · simp [schedule_appointment, hp', hd', List.getElem?_concat_length]
  · simp [schedule_appointment, hp', hd', Appointment.init,
      dictLookup_dictInsert_self]
  · refine ⟨{ p with appointments := p.appointments ++ [s.objects.length] },
      ?_, ?_⟩
    · simp [schedule_appointment, hp', hd', dictLookup_dictModify_self]
    · simp [List.count_append, hcp]
  · refine ⟨{ d with appointments := d.appointments ++ [s.objects.length] },
      ?_, ?_⟩
    · simp [schedule_appointment, hp', hd', dictLookup_dictModify_self]
    · simp [List.count_append, hcd]

/-- C1 witness: the startup state with its two sample records. -/
theorem C1_three_way_consistency_witness :
    ((dictLookup initState.patients_db "PAT001").isSome = true
      ∧ (dictLookup initState.doctors_db "DOC501").isSome = true)
  ∧ ∃ ref a,
      (schedule_appointment initState "PAT001" "DOC501" 0 1234).1 = Except.ok ref
    ∧ (schedule_appointment initState "PAT001" "DOC501" 0 1234).2.objects.get?
        ref = some a
    ∧ dictLookup (schedule_appointment initState "PAT001" "DOC501" 0 1234).2.appointments_db
        a.appointment_id = some ref
    ∧ (∃ p', dictLookup
        (schedule_appointment initState "PAT001" "DOC501" 0 1234).2.patients_db
        "PAT001" = some p' ∧ p'.appointments.count ref = 1)
    ∧ (∃ d', dictLookup
        (schedule_appointment initState "PAT001" "DOC501" 0 1234).2.doctors_db
        "DOC501" = some d' ∧ d'.appointments.count ref = 1) :=
  ⟨⟨by decide, by decide⟩,
   C1_three_way_consistency initState "PAT001" "DOC501" 0 1234
     (by decide) (by decide)
     (by intro p hp i hi
         simp [initState, dictLookup, Patient.init] at hp
         subst hp
         simp at hi)
     (by intro d hd i hi
         simp [initState, dictLookup, Doctor.init] at hd
         subst hd
         simp at hi)⟩

/-- C10: a successful schedule call changes only: the registry binding under
the new identifier, the resolved patient's appointment list (one appended
reference, every other field — id, name, phone number, medical history,
vitals — unchanged), and the resolved doctor's likewise; every other registry
key and every other patient and doctor binding reads exactly as before, and
the object list only grows by the one new appointment. -/
theorem C10_frame (s : AppState) (pid did : String) (t : Int) (r : Nat)
    (hp : (dictLookup s.patients_db pid).isSome = true)
    (hd : (dictLookup s.doctors_db did).isSome = true) :
    ((schedule_appointment s pid did t r).2.objects =
        s.objects ++ [Appointment.init ("APP" ++ toString r) pid did t])
  ∧ dictLookup (schedule_appointment s pid did t r).2.appointments_db
      ("APP" ++ toString r) = some s.objects.length
  ∧ (∀ k, k ≠ "APP" ++ toString r →
      dictLookup (schedule_appointment s pid did t r).2.appointments_db k =
        dictLookup s.appointments_db k)
  ∧ (∀ p, dictLookup s.patients_db pid = some p →
      dictLookup (schedule_appointment s pid did t r).2.patients_db pid =
        some { p with appointments := p.appointments ++ [s.objects.length] })
  ∧ (∀ q, q ≠ pid →
      dictLookup (schedule_appointment s pid did t r).2.patients_db q =
        dictLookup s.patients_db q)
  ∧ (∀ e, dictLookup s.doctors_db did = some e →
      dictLookup (schedule_appointment s pid did t r).2.doctors_db did =
        some { e with appointments := e.appointments ++ [s.objects.length] })
  ∧ (∀ q, q ≠ did →
      dictLookup (schedule_appointment s pid did t r).2.doctors_db q =
        dictLookup s.doctors_db q) := by
  rcases hp' : dictLookup s.patients_db pid with _ | p
  · rw [hp'] at hp; cases hp
  rcases hd' : dictLookup s.doctors_db did with _ | d
  · rw [hd'] at hd; cases hd
  refine ⟨?_, ?_, ?_, ?_, ?_, ?_, ?_⟩
  · simp [schedule_appointment, hp', hd']
  · simp [schedule_appointment, hp', hd', dictLookup_dictInsert_self]
  · intro k hk
    simp [schedule_appointment, hp', hd', dictLookup_dictInsert_ne _ _ _ _ hk]
  · intro p₀ hp₀
    have hpp : p₀ = p := (Option.some.inj hp₀).symm
    subst hpp
    simp [schedule_appointment, hp', hd', dictLookup_dictModify_self]
  · intro q hq
    simp [schedule_appointment, hp', hd', dictLookup_dictModify_ne _ _ _ _ hq]
  · intro e₀ he₀
    have hee : e₀ = d := (Option.some.inj he₀).symm
    subst hee
    simp [schedule_appointment, hp', hd', dictLookup_dictModify_self]
  · intro q hq
    simp [schedule_appointment, hp', hd', dictLookup_dictModify_ne _ _ _ _ hq]

/-- C10 witness: the startup state, confirming the frame at concrete other
keys. -/
theorem C10_frame_witness :
    ((dictLookup initState.patients_db "PAT001").isSome = true
      ∧ (dictLookup initState.doctors_db "DOC501").isSome = true)
  ∧ dictLookup (schedule_appointment initState "PAT001" "DOC501" 0 1234).2.appointments_db
      ("APP" ++ toString 1234) = some initState.objects.length
  ∧ dictLookup (schedule_appointment initState "PAT001" "DOC501" 0 1234).2.appointments_db
      "APP9999" = dictLookup initState.appointments_db "APP9999"
  ∧ dictLookup (schedule_appointment initState "PAT001" "DOC501" 0 1234).2.patients_db
      "PAT002" = dictLookup initState.patients_db "PAT002" :=
  ⟨⟨by decide, by decide⟩,
   (C10_frame initState "PAT001" "DOC501" 0 1234 (by decide) (by decide)).2.1,
   (C10_frame initState "PAT001" "DOC501" 0 1234 (by decide) (by decide)).2.2.1
     "APP9999" (by decide),
   (C10_frame initState "PAT001" "DOC501" 0 1234 (by decide) (by decide)).2.2.2.2.1
     "PAT002" (by decide)⟩

/-- The state after a first successful schedule call on the startup state,
with time 10 and drawn number 1234. -/
def collisionState1 : AppState :=
  (schedule_appointment initState "PAT001" "DOC501" 10 1234).2

/-- The state after a second schedule call that draws the same number 1234,
with time 20: the registry binding "APP1234" is overwritten. -/
def collisionState2 : AppState :=
  (schedule_appointment collisionState1 "PAT001" "DOC501" 20 1234).2

/-- C9: two successful schedule calls that draw the same random number give
two distinct appointment objects sharing identifier "APP1234"; afterwards the
registry's only binding maps "APP1234" to the second object, while both
objects remain referenced from the patient's and the doctor's lists — the
first appointment is reachable from the entity lists but not from the
registry under its identifier, breaking three-way consistency. -/
theorem C9_collision_breaks_consistency :
    (schedule_appointment initState "PAT001" "DOC501" 10 1234).1 = Except.ok 0
  ∧ (schedule_appointment collisionState1 "PAT001" "DOC501" 20 1234).1 =
      Except.ok 1
  ∧ collisionState2.appointments_db = [("APP1234", 1)]
  ∧ (dictLookup collisionState2.patients_db "PAT001").map Patient.appointments =
      some [0, 1]
  ∧ (dictLookup collisionState2.doctors_db "DOC501").map Doctor.appointments =
      some [0, 1]
  ∧ collisionState2.objects.get? 0 =
      some (Appointment.init "APP1234" "PAT001" "DOC501" 10)
  ∧ collisionState2.objects.get? 1 =
      some (Appointment.init "APP1234" "PAT001" "DOC501" 20)
  ∧ (Appointment.init "APP1234" "PAT001" "DOC501" 10).appointment_id =
      (Appointment.init "APP1234" "PAT001" "DOC501" 20).appointment_id
  ∧ Appointment.init "APP1234" "PAT001" "DOC501" 10 ≠
      Appointment.init "APP1234" "PAT001" "DOC501" 20 := by
  refine ⟨rfl, rfl, ?_, ?_, ?_, ?_, ?_, rfl, ?_⟩ <;> decide

end Reappointment
